import Mathlib

/-!
Verification of the accounts / coupons / orders logic of a Django + DRF
e-commerce backend.  The definitions below are a shallow embedding of
`accounts/models.py`, `accounts/views.py`, `accounts/serializers.py`,
`accounts/authentication.py`, `coupons/models.py` and `oders/models.py`.

Modelling conventions:
* timestamps are integer seconds (`timezone.now()` becomes a `now : Int`
  parameter); Decimal amounts are `ℚ`; database tables are lists of rows.
* random values (OTP codes, generated usernames, fresh SimpleJWT jtis) are
  oracle parameters of the functions that draw them.
* Django / DRF library behaviour that the code calls into is modelled from
  the library's documented semantics: `make_password`/`check_password`
  (salted hashing is idealised as an injective tagging function),
  `set_password(None)` (stores an unusable password), `normalize_email`
  (lower-cases the domain part), `str.lower`/`str.strip`, and DRF field
  validation (char-field length bounds, a minimal e-mail shape check).
* `signals.py` declares a `post_save` receiver, but no `apps.py` in the
  sources registers it, so request handlers are modelled without it.
-/

/-- Model of Python `str.strip` (ASCII whitespace). -/
def pyStrip (s : String) : String :=
  String.mk (((s.toList.dropWhile Char.isWhitespace).reverse.dropWhile Char.isWhitespace).reverse)

/-- Model of Python `str.lower` (ASCII). -/
def pyLower (s : String) : String :=
  String.mk (s.toList.map Char.toLower)

/-- Model of `django.contrib.auth.hashers.make_password`: salted hashing is
idealised as prepending the algorithm tag, so that hashing is injective and a
hash is never equal to its preimage. -/
def make_password (p : String) : String :=
  "pbkdf2_sha256$" ++ p

/-- Model of `django.contrib.auth.hashers.check_password`: succeeds exactly on
the stored hash of the offered plaintext. -/
def check_password (p stored : String) : Bool :=
  stored == make_password p

/-- Model of `AbstractBaseUser.set_password`: `set_password(None)` stores an
unusable password (Django prefixes it with `!`). -/
def set_password_value : Option String → String
  | some p => make_password p
  | none => "!unusable"

/-- Model of `BaseUserManager.normalize_email`: strips whitespace and
lower-cases the part after the last `@`; without an `@` the stripped string is
returned unchanged. -/
def normalize_email (e : String) : String :=
  let s := pyStrip e
  let cs := s.toList
  if cs.contains '@' then
    let rdom := cs.reverse.takeWhile (fun c => !(c == '@'))
    let rrest := cs.reverse.dropWhile (fun c => !(c == '@'))
    String.mk (rrest.reverse ++ (rdom.reverse.map Char.toLower))
  else s

/-- Row of `accounts.models.EmailOTP` (models.py 192-267). -/
structure EmailOTPRow where
  id : Nat
  email : String
  code : String
  purpose : String
  created_at : Int
  expires_at : Int
  is_used : Bool
deriving Repr, DecidableEq

/-- `EmailOTP.is_expired` (models.py 228-235): `timezone.now() >= expires_at`. -/
def EmailOTPRow.is_expired (r : EmailOTPRow) (now : Int) : Bool :=
  decide (r.expires_at ≤ now)

/-- Row of `accounts.models.PendingUser` (models.py 71-83). -/
structure PendingUserRow where
  email : String
  first_name : String
  last_name : String
  mobile_no : Option String
  address : String
  pin_code : String
  password : String
  created_at : Int
deriving Repr, DecidableEq

/-- Row of `accounts.models.CustomUser` (models.py 143-185), restricted to the
fields the verified flows touch. -/
structure UserRow where
  username : String
  email : String
  mobile_no : Option String
  first_name : String
  password : String
  is_active : Bool
deriving Repr, DecidableEq

/-- The database state: `CustomUser`, `PendingUser`, `EmailOTP` and
`BlacklistedAccessToken` tables, plus the outgoing e-mail queue
(recipient, otp code). -/
structure DB where
  users : List UserRow
  pending : List PendingUserRow
  otps : List EmailOTPRow
  blacklistedJtis : List String
  outbox : List (String × String)
deriving Repr, DecidableEq

/-- A row of maximal `created_at` (ties resolved towards the head of the
list), i.e. what `order_by("-created_at").first()` / `.latest("created_at")`
return on a non-empty queryset. -/
def pickLatest : List EmailOTPRow → Option EmailOTPRow
  | [] => none
  | r :: rs =>
    match pickLatest rs with
    | none => some r
    | some b => if r.created_at < b.created_at then some b else some r

/-- `EmailOTP.objects.filter(p).order_by("-created_at").first()` (also the
model's default `Meta.ordering = ["-created_at"]` with `.first()` or
`.latest("created_at")`). -/
def latestOtp (l : List EmailOTPRow) (p : EmailOTPRow → Bool) : Option EmailOTPRow :=
  pickLatest (l.filter p)

/-- Filter used by `VerifyOTPView.post` (views.py 348):
`EmailOTP.objects.filter(email=email, code=code, purpose="registration", is_used=False)`. -/
def vpred (email code : String) (x : EmailOTPRow) : Bool :=
  x.email == email && x.code == code && x.purpose == "registration" && !x.is_used

/-- Filter used by `VerifyPasswordResetOTPView.post` (views.py 525). -/
def prpred (email code : String) (x : EmailOTPRow) : Bool :=
  x.email == email && x.code == code && x.purpose == "password_reset" && !x.is_used

/-- Filter `email=email, purpose="registration"` (views.py 129, 179, 416, 433). -/
def regOtp (email : String) (x : EmailOTPRow) : Bool :=
  x.email == email && x.purpose == "registration"

/-- Filter `email=email, purpose="password_reset"` (views.py 483-485, 551). -/
def prOtp (email : String) (x : EmailOTPRow) : Bool :=
  x.email == email && x.purpose == "password_reset"

/-- `otp.mark_used()` (models.py 261-264): set `is_used` on the row with the
given primary key. -/
def markUsed (otps : List EmailOTPRow) (id : Nat) : List EmailOTPRow :=
  otps.map (fun r => if r.id == id then { r with is_used := true } else r)

/-- Uncaught Python exceptions (surface as HTTP 500). -/
inductive PyError where
  | nameError (n : String)
  | valueError (msg : String)
  | integrityError
deriving Repr, DecidableEq

/-- Response of a view: HTTP status, body message, resulting database. -/
structure SimpleResult where
  status : Nat
  msg : String
  db : DB
deriving Repr, DecidableEq

/-- Payload accepted by `RegisterSerializer` (serializers.py 46-55). -/
structure RegisterRequest where
  first_name : String
  last_name : String
  email : String
  mobile_no : String
  address : String
  pin_code : String
  password : String
  password2 : String
deriving Repr, DecidableEq

/-- Minimal model of DRF `EmailField` run-time validation. -/
def emailFieldOk (s : String) : Bool :=
  !s.isEmpty && s.toList.contains '@'

/-- Field-level validation of `RegisterSerializer` (required fields and
max-length bounds, serializers.py 47-55). -/
def registerFieldsValid (r : RegisterRequest) : Bool :=
  !r.first_name.isEmpty && r.first_name.length ≤ 50
    && r.last_name.length ≤ 50
    && emailFieldOk r.email
    && !r.mobile_no.isEmpty && r.mobile_no.length ≤ 10
    && r.pin_code.length ≤ 10
    && !r.password.isEmpty && !r.password2.isEmpty

/-- `RegisterSerializer.validate` (serializers.py 57-69): matching passwords
and email / mobile number unused by both `CustomUser` and `PendingUser`. -/
def registerValidate (db : DB) (r : RegisterRequest) : Bool :=
  (r.password == r.password2)
    && !(db.users.any (fun u => u.email == r.email)
          || db.pending.any (fun p => p.email == r.email))
    && !(db.users.any (fun u => u.mobile_no == some r.mobile_no)
          || db.pending.any (fun p => p.mobile_no == some r.mobile_no))

/-- `RegisterView.post` (views.py 106-199).  After serializer validation and
the (dead) password-match re-check, line 120 evaluates
`make_password(...)` — but `make_password` is never imported in
`accounts/views.py`, so the interpreter raises `NameError` and lines 123-199
(pending-user upsert, stale-OTP deletion, OTP creation, e-mail send, 201
response) are unreachable. -/
def registerPost (db : DB) (r : RegisterRequest) : Except PyError (Nat × DB) :=
  if !(registerFieldsValid r && registerValidate db r) then
    .ok (400, db)
  else if r.password != r.password2 then
    .ok (400, db)
  else
    .error (.nameError "make_password")

/-- `CustomUserManager.create_user` (models.py 96-120).  `username` is the
oracle for `generate_random_username` (the source loops until an unused name
is drawn); `save` raises `IntegrityError` when a unique column collides. -/
def create_user (db : DB) (username : String) (email : String)
    (password : Option String) (first_name : Option String)
    (mobile_no : Option String) (is_active : Bool) :
    Except PyError (UserRow × DB) :=
  if email.isEmpty then
    .error (.valueError "The Email field is required.")
  else
    let em := normalize_email email
    let u : UserRow :=
      { username := username
        email := em
        mobile_no := mobile_no
        first_name := first_name.getD ""
        password := set_password_value password
        is_active := is_active }
    if db.users.any (fun v =>
        v.email == em || v.username == username
          || (match mobile_no with
              | some m => v.mobile_no == some m
              | none => false)) then
      .error .integrityError
    else
      .ok (u, { db with users := db.users ++ [u] })

/-- Response of `VerifyOTPView.post`: status, message, resulting database and
the e-mail the issued token pair is bound to (`RefreshToken.for_user`). -/
structure VerifyResult where
  status : Nat
  msg : String
  db : DB
  tokenIssuedFor : Option String
deriving Repr, DecidableEq

/-- `VerifyOTPView.post` (views.py 341-386): look up the latest matching
unused registration OTP, reject when absent or expired, mark it used, promote
the `PendingUser` through `create_user(..., is_active=True)`, delete the
pending row and issue tokens. -/
def verifyOtpPost (db : DB) (now : Int) (username : String)
    (email code : String) : Except PyError VerifyResult :=
  if email.isEmpty || code.isEmpty then
    .ok ⟨400, "Email and OTP are required.", db, none⟩
  else
    match latestOtp db.otps (vpred email code) with
    | none => .ok ⟨400, "Invalid or expired OTP.", db, none⟩
    | some otp =>
      if otp.is_expired now then
        .ok ⟨400, "Invalid or expired OTP.", db, none⟩
      else
        let db1 : DB := { db with otps := markUsed db.otps otp.id }
        match db1.pending.find? (fun p => p.email == email) with
        | none => .ok ⟨404, "Pending user not found.", db1, none⟩
        | some pending =>
          match create_user db1 username pending.email (some pending.password)
              (some pending.first_name) pending.mobile_no true with
          | .error e => .error e
          | .ok (user, db2) =>
            let db3 : DB :=
              { db2 with pending := db2.pending.filter (fun p => !(p.email == pending.email)) }
            .ok ⟨200, "OTP verified successfully.", db3, some user.email⟩

/-- `ResendOTPView.post` (views.py 399-452): require a pending registration,
refuse while an unused unexpired OTP is outstanding (400), enforce the 60 s
cooldown (429), otherwise delete all registration OTPs for the e-mail and
create a fresh one expiring in 10 minutes.  `newId` / `otpCode` are the
oracle for the fresh row's key and `generate_otp()`. -/
def resendOtpPost (db : DB) (now : Int) (newId : Nat) (otpCode : String)
    (emailRaw : String) : SimpleResult :=
  let email := pyStrip (pyLower emailRaw)
  if email.isEmpty then
    ⟨400, "Email is required.", db⟩
  else if (db.pending.find? (fun p => p.email == email)).isNone then
    ⟨404, "No pending registration found. Please register first.", db⟩
  else
    let last := latestOtp db.otps (regOtp email)
    if (match last with
        | some l => !l.is_used && !(l.is_expired now)
        | none => false) then
      ⟨400, "OTP already sent. Please verify it.", db⟩
    else if (match last with
        | some l => decide (now - l.created_at < 60)
        | none => false) then
      ⟨429, "Wait before requesting another OTP.", db⟩
    else
      let kept := db.otps.filter (fun x => !(regOtp email x))
      let fresh : EmailOTPRow :=
        ⟨newId, email, otpCode, "registration", now, now + 600, false⟩
      ⟨200, "OTP resent successfully.",
        { db with otps := kept ++ [fresh], outbox := db.outbox ++ [(email, otpCode)] }⟩

/-- `SendPasswordResetOTPView.post` (views.py 466-508): require an existing
user, enforce the 60 s cooldown (429), then create one more password-reset
OTP expiring in 10 minutes — without deleting any earlier rows. -/
def sendPasswordResetOtpPost (db : DB) (now : Int) (newId : Nat)
    (otpCode : String) (email : String) : SimpleResult :=
  if email.isEmpty then
    ⟨400, "Email is required.", db⟩
  else if (db.users.find? (fun u => u.email == email)).isNone then
    ⟨404, "User not found.", db⟩
  else
    let last := latestOtp db.otps (prOtp email)
    if (match last with
        | some l => decide (now - l.created_at < 60)
        | none => false) then
      ⟨429, "Wait before requesting another OTP.", db⟩
    else
      let fresh : EmailOTPRow :=
        ⟨newId, email, otpCode, "password_reset", now, now + 600, false⟩
      ⟨200, "Password reset OTP sent.",
        { db with otps := db.otps ++ [fresh], outbox := db.outbox ++ [(email, otpCode)] }⟩

/-- `VerifyPasswordResetOTPView.post` (views.py 518-534). -/
def verifyPasswordResetOtpPost (db : DB) (now : Int) (email code : String) :
    SimpleResult :=
  if email.isEmpty || code.isEmpty then
    ⟨400, "Email and OTP required.", db⟩
  else
    match latestOtp db.otps (prpred email code) with
    | none => ⟨400, "Invalid or expired OTP.", db⟩
    | some otp =>
      if otp.is_expired now then
        ⟨400, "OTP expired.", db⟩
      else
        ⟨200, "OTP verified.", { db with otps := markUsed db.otps otp.id }⟩

/-- Payload of `PasswordResetSerializer` (serializers.py 241-243): the three
declared fields. -/
structure ResetRequest where
  email : String
  new_password : String
  confirm_password : String
deriving Repr, DecidableEq

/-- Field-level validation of `PasswordResetSerializer`
(`EmailField`, two `CharField(min_length=6)`). -/
def resetFieldsValid (r : ResetRequest) : Bool :=
  emailFieldOk r.email && 6 ≤ r.new_password.length && 6 ≤ r.confirm_password.length

/-- `PasswordResetSerializer.validate` (serializers.py 245-260).  It reads
`data.get("password")` and `data.get("password2")`, keys the serializer never
declares, so both are `None`; the `None != None` mismatch check passes, the
user is looked up by e-mail, and `data["new_password"]` is overwritten with
`None`. -/
def passwordResetValidate (db : DB) (r : ResetRequest) :
    Option (UserRow × Option String) :=
  let password : Option String := none
  let password2 : Option String := none
  if password != password2 then none
  else
    match db.users.find? (fun u => u.email == r.email) with
    | none => none
    | some u => some (u, password)

/-- `ResetPasswordView.post` (views.py 543-553): validate, call
`user.set_password(validated_data["new_password"])` (which is `None`), save,
and delete every password-reset OTP for the user's e-mail.  No OTP is
consulted anywhere on this path. -/
def resetPasswordPost (db : DB) (r : ResetRequest) : SimpleResult :=
  if !(resetFieldsValid r) then
    ⟨400, "validation error", db⟩
  else
    match passwordResetValidate db r with
    | none => ⟨400, "validation error", db⟩
    | some (u, newpw) =>
      ⟨200, "Password reset successful.",
        { db with
            users := db.users.map (fun v =>
              if v.email == u.email then { v with password := set_password_value newpw } else v)
            otps := db.otps.filter (fun o => !(prOtp u.email o)) }⟩

/-- `LogoutView.post` (views.py 275-288).  The SimpleJWT `token_blacklist`
app is not in `INSTALLED_APPS` (`drfcommerce/settings.py`; it is commented out
in `settings/base.py` as well), so `RefreshToken` carries no `blacklist`
method: line 283 raises `AttributeError`, which the bare `except` swallows.
No blacklist row of any kind is written; only the cookie is deleted. -/
def logoutPost (db : DB) (refreshCookie : Option String) : Nat × DB :=
  match refreshCookie with
  | some _ => (200, db)
  | none => (200, db)

/-- A decoded access token: its `jti` claim, the user it names, and whether
signature / expiry validation (`get_validated_token`) accepts it. -/
structure AccessTokenData where
  jti : String
  user_email : String
  sigOk : Bool
  notExpired : Bool
deriving Repr, DecidableEq

/-- A refresh token presented in the `refresh` cookie. -/
structure RefreshTokenData where
  user_email : String
  valid : Bool
deriving Repr, DecidableEq

/-- Outcome of `CustomJWTAuthentication.authenticate`. -/
inductive AuthOutcome where
  | anonymous
  | authenticated (email : String) (jti : String)
  | failed (msg : String)
deriving Repr, DecidableEq

/-- `CustomJWTAuthentication.authenticate` (authentication.py 14-53):
validate the bearer token, on failure fall back to the `refresh` cookie
(minting a new access token whose fresh jti is the `freshJti` oracle; with the
`token_blacklist` app absent, `getattr(refresh, "blacklist", None)` is `None`
and no rotation happens), then reject any validated token whose `jti` is in
`BlacklistedAccessToken`, and finally resolve the (active) user. -/
def customJwtAuthenticate (db : DB) (raw : Option AccessTokenData)
    (refreshCookie : Option RefreshTokenData) (freshJti : String) : AuthOutcome :=
  match raw with
  | none => .anonymous
  | some t =>
    let validated : Except String AccessTokenData :=
      if t.sigOk && t.notExpired then .ok t
      else
        match refreshCookie with
        | none => .error "Access token expired and no refresh token found."
        | some rt =>
          if rt.valid then
            .ok { jti := freshJti, user_email := rt.user_email, sigOk := true, notExpired := true }
          else
            .error "Refresh token is invalid or expired."
    match validated with
    | .error m => .failed m
    | .ok vt =>
      if !vt.jti.isEmpty && db.blacklistedJtis.contains vt.jti then
        .failed "This access token has been blacklisted."
      else
        match db.users.find? (fun u => u.email == vt.user_email) with
        | none => .failed "User not found"
        | some u =>
          if u.is_active then .authenticated u.email vt.jti
          else .failed "User is inactive"

/-- `coupons.models.Coupon` (coupons/models.py 6-64). -/
structure Coupon where
  code : String
  discount_type : String
  discount_value : ℚ
  min_purchase_amount : ℚ
  valid_from : Int
  valid_to : Int
  active : Bool
  usage_limit : Option Nat
  used_count : Nat
deriving Repr, DecidableEq

/-- `Coupon.is_valid` (coupons/models.py 69-84). -/
def Coupon.is_valid (c : Coupon) (now : Int) (order_total : Option ℚ) : Bool :=
  if !c.active then false
  else if decide (now < c.valid_from) || decide (c.valid_to < now) then false
  else if (match c.usage_limit with
      | some l => decide (l ≤ c.used_count)
      | none => false) then false
  else if (match order_total with
      | some t => decide (t < c.min_purchase_amount)
      | none => false) then false
  else true

/-- `Coupon.apply_discount` (coupons/models.py 96-109). -/
def Coupon.apply_discount (c : Coupon) (now : Int) (total_amount : ℚ) : ℚ :=
  if !(c.is_valid now (some total_amount)) then total_amount
  else
    let discount :=
      if c.discount_type == "percentage" then (c.discount_value / 100) * total_amount
      else c.discount_value
    max (total_amount - discount) 0

/-- `oders.models.Order` (oders/models.py 11-104), restricted to the pricing
fields `apply_coupon` touches. -/
structure Order where
  total_price : ℚ
  coupon : Option Coupon
  discount_amount : ℚ
  final_price : ℚ
deriving Repr, DecidableEq

/-- `Order.apply_coupon` (oders/models.py 87-97). -/
def Order.apply_coupon (o : Order) (now : Int) : Order :=
  match o.coupon with
  | some c =>
    if c.is_valid now (some o.total_price) then
      let discounted := c.apply_discount now o.total_price
      { o with discount_amount := o.total_price - discounted, final_price := discounted }
    else
      { o with discount_amount := 0, final_price := o.total_price }
  | none => { o with discount_amount := 0, final_price := o.total_price }

/-- `Order.save` (oders/models.py 99-104): always recomputes via `apply_coupon`. -/
def Order.save (o : Order) (now : Int) : Order :=
  o.apply_coupon now

/-- C9: `Coupon.is_valid(order_total)` returns `True` exactly when the coupon
is active, `valid_from <= now <= valid_to`, `used_count` is strictly below
`usage_limit` whenever a limit is set, and `order_total` is at least
`min_purchase_amount` whenever it is provided; and whenever `is_valid` is
`False` for the given total, `apply_discount` returns the total unchanged. -/
theorem C9_coupon_is_valid_iff (c : Coupon) (now : Int) (ot : Option ℚ) :
    (c.is_valid now ot = true ↔
      (c.active = true ∧ c.valid_from ≤ now ∧ now ≤ c.valid_to
        ∧ (∀ l, c.usage_limit = some l → c.used_count < l)
        ∧ (∀ t, ot = some t → c.min_purchase_amount ≤ t)))
    ∧ (∀ total : ℚ, c.is_valid now (some total) = false →
        c.apply_discount now total = total) := by
  constructor
  · unfold Coupon.is_valid
    cases hact : c.active <;> cases hul : c.usage_limit <;> cases hot : ot <;>
      simp_all [not_lt, and_assoc]
  · intro total h
    unfold Coupon.apply_discount
    simp [h]

/-- C9 witness: a concrete valid coupon, and a concrete inactive one on which
`apply_discount` is the identity. -/
theorem C9_coupon_is_valid_iff_witness :
    ({ code := "SAVE10", discount_type := "percentage", discount_value := 10,
       min_purchase_amount := 0, valid_from := 0, valid_to := 100, active := true,
       usage_limit := none, used_count := 0 : Coupon }.is_valid 50 none = true)
    ∧ ({ code := "OFF", discount_type := "fixed", discount_value := 5,
         min_purchase_amount := 0, valid_from := 0, valid_to := 100, active := false,
         usage_limit := none, used_count := 0 : Coupon }.apply_discount 50 7 = 7) := by
  constructor
  · apply (C9_coupon_is_valid_iff _ 50 none).1.mpr
    refine ⟨rfl, by norm_num, by norm_num, ?_, ?_⟩ <;> intro x h <;> cases h
  · exact (C9_coupon_is_valid_iff _ 50 (some 7)).2 7 (by decide)

/-- C10: after `Order.save` (which always recomputes via `apply_coupon`),
`discount_amount + final_price = total_price` and
`0 <= final_price <= total_price`, given a non-negative total and a
non-negative coupon discount value; in particular with no coupon attached or
a coupon invalid for the total, `discount_amount` is `0` and `final_price`
equals `total_price`. -/
theorem C10_order_save_invariant (o : Order) (now : Int)
    (htp : 0 ≤ o.total_price)
    (hdv : ∀ c, o.coupon = some c → 0 ≤ c.discount_value) :
    ((o.save now).discount_amount + (o.save now).final_price = o.total_price)
    ∧ 0 ≤ (o.save now).final_price
    ∧ (o.save now).final_price ≤ o.total_price
    ∧ ((∀ c, o.coupon = some c → c.is_valid now (some o.total_price) = false) →
        (o.save now).discount_amount = 0 ∧ (o.save now).final_price = o.total_price) := by
  unfold Order.save Order.apply_coupon
  cases hc : o.coupon with
  | none => simp [htp]
  | some c =>
    by_cases hv : c.is_valid now (some o.total_price) = true
    · have hd : 0 ≤ c.discount_value := hdv c hc
      have hdisc : c.apply_discount now o.total_price =
          max (o.total_price -
            (if c.discount_type == "percentage" then (c.discount_value / 100) * o.total_price
             else c.discount_value)) 0 := by
        unfold Coupon.apply_discount
        simp [hv]
      have hd0 : (0:ℚ) ≤
          (if c.discount_type == "percentage" then (c.discount_value / 100) * o.total_price
           else c.discount_value) := by
        split
        · positivity
        · exact hd
      simp only [hv, if_true]
      refine ⟨by ring_nf, ?_, ?_, ?_⟩
      · rw [hdisc]; exact le_max_right _ _
      · rw [hdisc]
        exact max_le (by linarith) htp
      · intro hinv
        exact absurd hv (by simp [hinv c rfl])
    · simp only [Bool.not_eq_true] at hv
      simp [hv, htp]

/-- C10 witness: the invariant instantiated on a concrete order carrying a
concrete 10%-off coupon. -/
theorem C10_order_save_invariant_witness :
    let c : Coupon :=
      { code := "SAVE10", discount_type := "percentage", discount_value := 10,
        min_purchase_amount := 0, valid_from := 0, valid_to := 100, active := true,
        usage_limit := none, used_count := 0 }
    let o : Order := { total_price := 200, coupon := some c, discount_amount := 0, final_price := 0 }
    ((o.save 50).discount_amount + (o.save 50).final_price = o.total_price)
    ∧ 0 ≤ (o.save 50).final_price
    ∧ (o.save 50).final_price ≤ o.total_price
    ∧ ((∀ c', o.coupon = some c' → c'.is_valid 50 (some o.total_price) = false) →
        (o.save 50).discount_amount = 0 ∧ (o.save 50).final_price = o.total_price) := by
  intro c o
  exact C10_order_save_invariant o 50 (by norm_num)
    (fun c' h => by cases h; norm_num)

theorem latestOtp_of_filter_nil {l : List EmailOTPRow} {p : EmailOTPRow → Bool}
    (h : l.filter p = []) : latestOtp l p = none := by
  unfold latestOtp
  rw [h]
  rfl

theorem latestOtp_of_filter_singleton {l : List EmailOTPRow} {p : EmailOTPRow → Bool}
    {r : EmailOTPRow} (h : l.filter p = [r]) : latestOtp l p = some r := by
  unfold latestOtp
  rw [h]
  rfl

/-- Re-hashing a hash never reproduces the hash itself. -/
theorem make_password_ne (p : String) :
    make_password (make_password p) ≠ make_password p := by
  intro h
  have hl := congrArg String.length h
  have h14 : ("pbkdf2_sha256$" : String).length = 14 := rfl
  simp only [make_password, String.length_append, h14] at hl
  omega

/-- `check_password` with the original plaintext fails on a double hash. -/
theorem check_password_double_hash (p : String) :
    check_password p (make_password (make_password p)) = false := by
  unfold check_password
  exact beq_eq_false_iff_ne.mpr (make_password_ne p)

/-- `check_password` always fails on an unusable password. -/
theorem check_password_unusable (p : String) :
    check_password p (set_password_value none) = false := by
  unfold check_password set_password_value
  apply beq_eq_false_iff_ne.mpr
  intro h
  have hl := congrArg String.length h
  have h14 : ("pbkdf2_sha256$" : String).length = 14 := rfl
  have h9 : ("!unusable" : String).length = 9 := rfl
  simp only [make_password, String.length_append, h14, h9] at hl
  omega

/-- Case analysis of `registerPost`: the serializer rejects with a 400 that
leaves the database unchanged, or line 120 raises `NameError` — no branch
ever writes a row or returns a success status. -/
theorem registerPost_cases (db : DB) (r : RegisterRequest) :
    registerPost db r = .ok (400, db)
    ∨ registerPost db r = .error (.nameError "make_password") := by
  unfold registerPost
  split
  · exact .inl rfl
  · split
    · exact .inl rfl
    · exact .inr rfl

/-- C1: the claim says a registration request passing `RegisterSerializer`
validation (on a fresh e-mail / mobile, matching passwords, outside the OTP
cooldown) makes `RegisterView.post` delete stale registration OTPs, create
exactly one fresh OTP, send the OTP e-mail and return HTTP 201.  The code
cannot do any of this: `make_password` is never imported in
`accounts/views.py`, so line 120 raises `NameError` on every request that
passes validation (an uncaught exception, HTTP 500), regardless of the OTP
state — no OTP row is ever deleted or created and no 201 is ever returned. -/
theorem C1_register_raises_nameError (db : DB) (r : RegisterRequest)
    (hfields : registerFieldsValid r = true)
    (hvalid : registerValidate db r = true) :
    registerPost db r = .error (.nameError "make_password") := by
  have hpw : r.password = r.password2 := by
    unfold registerValidate at hvalid
    simp only [Bool.and_eq_true, beq_iff_eq] at hvalid
    exact hvalid.1.1
  unfold registerPost
  simp [hfields, hvalid, hpw]

/-- C1 witness: a concrete fresh registration payload against an empty
database raises the `NameError`. -/
theorem C1_register_raises_nameError_witness :
    registerPost ⟨[], [], [], [], []⟩
      ⟨"Alice", "", "alice@example.com", "1234567890", "", "", "secret12", "secret12"⟩
      = .error (.nameError "make_password") :=
  C1_register_raises_nameError _ _ (by decide) (by decide)

/-- Rows surviving a deletion (`filter` by the negated predicate) never match
any predicate at least as strong as the deletion predicate. -/
theorem filter_sub_nil {α : Type} (l : List α) (p q : α → Bool)
    (h : ∀ x, q x = true → p x = true) :
    (l.filter (fun x => !(p x))).filter q = [] := by
  induction l with
  | nil => rfl
  | cons a t ih =>
    by_cases hp : p a = true
    · simp [hp, ih]
    · have hq : q a = false := by
        cases hqa : q a
        · rfl
        · exact absurd (h a hqa) hp
      simp only [Bool.not_eq_true] at hp
      simp [hp, hq, ih]

/-- C3 (amended): after every `ResendOTPView.post` that completes with
HTTP 200, the registration OTP rows for the (normalised) e-mail are exactly
the one freshly created row — unused, created now, expiring 10 minutes later —
so at most one unexpired unused registration OTP exists for the pair and it is
the row a subsequent verification with its code validates against.  The
original claim fails for the other two views: `RegisterView.post` never
completes (`make_password` is unimported), and `SendPasswordResetOTPView.post`
does not delete earlier rows, so several unexpired unused password-reset OTPs
can coexist (see the counterexample). -/
theorem C3_resend_leaves_single_registration_otp (db : DB) (now : Int)
    (newId : Nat) (otpCode emailRaw : String) (email : String)
    (hnorm : pyStrip (pyLower emailRaw) = email)
    (hst : (resendOtpPost db now newId otpCode emailRaw).status = 200) :
    ((resendOtpPost db now newId otpCode emailRaw).db.otps.filter (regOtp email)
        = [⟨newId, email, otpCode, "registration", now, now + 600, false⟩])
    ∧ latestOtp (resendOtpPost db now newId otpCode emailRaw).db.otps (vpred email otpCode)
        = some ⟨newId, email, otpCode, "registration", now, now + 600, false⟩ := by
  have hsub : ∀ x, vpred email otpCode x = true → regOtp email x = true := by
    intro x hx
    unfold vpred at hx
    unfold regOtp
    simp only [Bool.and_eq_true] at hx
    simp [hx.1.1.1, hx.1.2]
  unfold resendOtpPost at hst ⊢
  rw [hnorm] at hst ⊢
  by_cases h1 : email.isEmpty = true
  · simp [h1] at hst
  · simp only [Bool.not_eq_true] at h1
    by_cases h2 : (db.pending.find? (fun p => p.email == email)).isNone = true
    · simp [h1, h2] at hst
    · simp only [Bool.not_eq_true] at h2
      by_cases h3 : (match latestOtp db.otps (regOtp email) with
          | some l => !l.is_used && !(l.is_expired now)
          | none => false) = true
      · simp [h1, h2, h3] at hst
      · simp only [Bool.not_eq_true] at h3
        by_cases h4 : (match latestOtp db.otps (regOtp email) with
            | some l => decide (now - l.created_at < 60)
            | none => false) = true
        · simp [h1, h2, h3, h4] at hst
        · simp only [Bool.not_eq_true] at h4
          simp only [h1, h2, h3, h4, Bool.false_eq_true, if_false]
          constructor
          · rw [List.filter_append]
            rw [filter_sub_nil db.otps (regOtp email) (regOtp email) (fun x hx => hx)]
            simp [regOtp]
          · apply latestOtp_of_filter_singleton
            rw [List.filter_append]
            rw [filter_sub_nil db.otps (regOtp email) (vpred email otpCode) hsub]
            simp [vpred]

/-- C3 witness: a concrete successful resend (pending user present, no prior
OTP rows) instantiating the amended invariant. -/
theorem C3_resend_leaves_single_registration_otp_witness :
    ((resendOtpPost
        ⟨[], [⟨"dave@example.com", "Dave", "", some "0123456789", "", "", "pbkdf2_sha256$pw", 0⟩],
          [], [], []⟩
        100 7 "123456" "dave@example.com").db.otps.filter (regOtp "dave@example.com")
      = [⟨7, "dave@example.com", "123456", "registration", 100, 700, false⟩])
    ∧ latestOtp (resendOtpPost
        ⟨[], [⟨"dave@example.com", "Dave", "", some "0123456789", "", "", "pbkdf2_sha256$pw", 0⟩],
          [], [], []⟩
        100 7 "123456" "dave@example.com").db.otps (vpred "dave@example.com" "123456")
      = some ⟨7, "dave@example.com", "123456", "registration", 100, 700, false⟩ :=
  C3_resend_leaves_single_registration_otp _ 100 7 "123456" "dave@example.com"
    "dave@example.com" (by decide) (by decide)

/-- Database refuting the original C3: one unused, unexpired password-reset
OTP (created at 0, expiring at 600) for an existing user. -/
def dbC3 : DB :=
  { users := [⟨"bob1", "bob@example.com", some "0987654321", "Bob", "pbkdf2_sha256$pw", true⟩]
  , pending := []
  , otps := [⟨1, "bob@example.com", "111111", "password_reset", 0, 600, false⟩]
  , blacklistedJtis := []
  , outbox := [] }

/-- The state after requesting a second password-reset OTP at `now = 100`
(outside the 60 s cooldown). -/
def dbC3after : DB := (sendPasswordResetOtpPost dbC3 100 2 "222222" "bob@example.com").db

/-- C3 counterexample: `SendPasswordResetOTPView.post` completes with 200 but
leaves TWO unexpired, unused password-reset OTP rows for the same e-mail, and
a subsequent verification validates against either of them (both the old and
the new code are accepted), refuting the claimed invariant. -/
theorem C3_password_reset_counterexample :
    (sendPasswordResetOtpPost dbC3 100 2 "222222" "bob@example.com").status = 200
    ∧ (dbC3after.otps.filter
        (fun r => prOtp "bob@example.com" r && !r.is_used && !(r.is_expired 100))).length = 2
    ∧ (verifyPasswordResetOtpPost dbC3after 100 "bob@example.com" "111111").status = 200
    ∧ (verifyPasswordResetOtpPost dbC3after 100 "bob@example.com" "222222").status = 200 := by
  decide

/-- Database refuting C8 as stated: a pending registration for Dave with an
unused registration OTP created at 570 expiring at 1170. -/
def dbC8 : DB :=
  { users := []
  , pending := [⟨"dave@example.com", "Dave", "", some "0123456789", "", "", "pbkdf2_sha256$pw", 500⟩]
  , otps := [⟨1, "dave@example.com", "654321", "registration", 570, 1170, false⟩]
  , blacklistedJtis := []
  , outbox := [] }

/-- C8 counterexample: a resend arriving 30 s after the most recent
registration OTP (well inside the 60 s cooldown) is rejected with HTTP 400
("OTP already sent"), not 429 as the claim states, because the active-OTP
check at views.py 418 fires before the cooldown check at views.py 425.  (No
new OTP row is created, as the claim also says.) -/
theorem C8_resend_within_cooldown_counterexample :
    (resendOtpPost dbC8 600 2 "999999" "dave@example.com").status = 400
    ∧ ¬ ((resendOtpPost dbC8 600 2 "999999" "dave@example.com").status = 429)
    ∧ (resendOtpPost dbC8 600 2 "999999" "dave@example.com").db = dbC8 := by
  decide

/-- C8 (amended): a request arriving less than 60 s after the most recent
OTP for the same e-mail and purpose never creates a new OTP row, and is
rejected as follows: `SendPasswordResetOTPView.post` with HTTP 429 and a wait
message; `ResendOTPView.post` with HTTP 400 while that OTP is still unused
and unexpired and with HTTP 429 otherwise; `RegisterView.post` rejects every
request with a serializer 400 or crashes with the `make_password` `NameError`
before reaching its cooldown check, so it never creates a row at all. -/
theorem C8_cooldown_amended :
    (∀ (db : DB) (now : Int) (newId : Nat) (otpCode email : String)
        (u : UserRow) (l : EmailOTPRow),
      email ≠ "" →
      db.users.find? (fun v => v.email == email) = some u →
      latestOtp db.otps (prOtp email) = some l →
      now - l.created_at < 60 →
      sendPasswordResetOtpPost db now newId otpCode email
        = ⟨429, "Wait before requesting another OTP.", db⟩)
    ∧ (∀ (db : DB) (now : Int) (newId : Nat) (otpCode emailRaw email : String)
        (p : PendingUserRow) (l : EmailOTPRow),
      pyStrip (pyLower emailRaw) = email →
      email ≠ "" →
      db.pending.find? (fun q => q.email == email) = some p →
      latestOtp db.otps (regOtp email) = some l →
      now - l.created_at < 60 →
      (resendOtpPost db now newId otpCode emailRaw).db = db
      ∧ (resendOtpPost db now newId otpCode emailRaw).status
          = (if !l.is_used && !(l.is_expired now) then 400 else 429))
    ∧ (∀ (db : DB) (r : RegisterRequest),
      registerPost db r = .ok (400, db)
      ∨ registerPost db r = .error (.nameError "make_password")) := by
  refine ⟨?_, ?_, registerPost_cases⟩
  · intro db now newId otpCode email u l hne hfind hlast hcool
    unfold sendPasswordResetOtpPost
    have h1 : email.isEmpty = false := by
      cases he : email.isEmpty
      · rfl
      · exact absurd ((String.isEmpty_iff email).mp he) hne
    rw [hlast] at *
    simp [h1, hfind, hlast, hcool]
  · intro db now newId otpCode emailRaw email p l hnorm hne hfind hlast hcool
    unfold resendOtpPost
    rw [hnorm]
    have h1 : email.isEmpty = false := by
      cases he : email.isEmpty
      · rfl
      · exact absurd ((String.isEmpty_iff email).mp he) hne
    by_cases hact : (!l.is_used && !(l.is_expired now)) = true
    · simp [h1, hfind, hlast, hact]
    · simp only [Bool.not_eq_true] at hact
      simp [h1, hfind, hlast, hact, hcool]

/-- C8 witness: a concrete password-reset OTP request 30 s after the previous
one is rejected with 429 and leaves the database unchanged. -/
theorem C8_cooldown_amended_witness :
    sendPasswordResetOtpPost dbC3 30 9 "333333" "bob@example.com"
      = ⟨429, "Wait before requesting another OTP.", dbC3⟩ :=
  C8_cooldown_amended.1 dbC3 30 9 "333333" "bob@example.com"
    ⟨"bob1", "bob@example.com", some "0987654321", "Bob", "pbkdf2_sha256$pw", true⟩
    ⟨1, "bob@example.com", "111111", "password_reset", 0, 600, false⟩
    (by decide) (by decide) (by decide) (by decide)

/-- C6: a registration-OTP verification whose matching (latest, unused) OTP
row is expired — `now` at or past `expires_at` — returns HTTP 400 with
"Invalid or expired OTP." and leaves the database unchanged: no `CustomUser`
is created, the `PendingUser` row is kept, and the OTP row is not marked
used. -/
theorem C6_expired_otp_rejected_state_unchanged (db : DB) (now : Int)
    (username email code : String) (r : EmailOTPRow)
    (hemail : email ≠ "") (hcode : code ≠ "")
    (hfind : latestOtp db.otps (vpred email code) = some r)
    (hexp : r.expires_at ≤ now) :
    verifyOtpPost db now username email code
      = .ok ⟨400, "Invalid or expired OTP.", db, none⟩ := by
  unfold verifyOtpPost
  have h1 : email.isEmpty = false := by
    cases he : email.isEmpty
    · rfl
    · exact absurd ((String.isEmpty_iff email).mp he) hemail
  have h2 : code.isEmpty = false := by
    cases he : code.isEmpty
    · rfl
    · exact absurd ((String.isEmpty_iff code).mp he) hcode
  simp [h1, h2, hfind, EmailOTPRow.is_expired, hexp]

/-- C6 witness: a concrete expired registration OTP (expired at 100,
verification attempted at 600) is rejected and the state — including the
pending user and the unused OTP row — is untouched. -/
theorem C6_expired_otp_rejected_state_unchanged_witness :
    verifyOtpPost
      ⟨[], [⟨"eve@example.com", "Eve", "", some "1112223334", "", "", "pbkdf2_sha256$pw", 0⟩],
        [⟨3, "eve@example.com", "111222", "registration", 0, 100, false⟩], [], []⟩
      600 "eve_1234" "eve@example.com" "111222"
      = .ok ⟨400, "Invalid or expired OTP.",
          ⟨[], [⟨"eve@example.com", "Eve", "", some "1112223334", "", "", "pbkdf2_sha256$pw", 0⟩],
            [⟨3, "eve@example.com", "111222", "registration", 0, 100, false⟩], [], []⟩, none⟩ :=
  C6_expired_otp_rejected_state_unchanged _ 600 "eve_1234" "eve@example.com" "111222"
    ⟨3, "eve@example.com", "111222", "registration", 0, 100, false⟩
    (by decide) (by decide) (by decide) (by decide)

/-- C5: whenever the e-mail matches an existing user and the two declared
password fields pass field validation, `ResetPasswordView.post` returns
HTTP 200 — no password-reset OTP is consulted anywhere (the theorem holds for
every `db.otps`, and the view merely deletes the purpose rows afterwards) —
and the stored password is `set_password(None)` (the serializer's `validate`
reads the undeclared key `"password"`, so `new_password` is overwritten with
`None`): the submitted `new_password` does not check against what is stored. -/
theorem C5_reset_password_ignores_new_password (db : DB) (r : ResetRequest) (u : UserRow)
    (hfields : resetFieldsValid r = true)
    (hfind : db.users.find? (fun v => v.email == r.email) = some u) :
    resetPasswordPost db r
      = ⟨200, "Password reset successful.",
          { db with
              users := db.users.map (fun v =>
                if v.email == u.email then { v with password := set_password_value none } else v)
              otps := db.otps.filter (fun o => !(prOtp u.email o)) }⟩
    ∧ (∀ plain, check_password plain (set_password_value none) = false) := by
  constructor
  · unfold resetPasswordPost passwordResetValidate
    simp [hfields, hfind]
  · exact check_password_unusable

/-- C5 witness: a concrete reset request for an existing user, with no OTP
row ever issued, succeeds with 200 and stores the unusable password. -/
theorem C5_reset_password_ignores_new_password_witness :
    resetPasswordPost
      ⟨[⟨"bob1", "bob@example.com", some "0987654321", "Bob", "pbkdf2_sha256$old", true⟩],
        [], [], [], []⟩
      ⟨"bob@example.com", "newsecret", "newsecret"⟩
      = ⟨200, "Password reset successful.",
          ⟨[⟨"bob1", "bob@example.com", some "0987654321", "Bob", "!unusable", true⟩],
            [], [], [], []⟩⟩
    ∧ check_password "newsecret" (set_password_value none) = false := by
  have h := C5_reset_password_ignores_new_password
    ⟨[⟨"bob1", "bob@example.com", some "0987654321", "Bob", "pbkdf2_sha256$old", true⟩],
      [], [], [], []⟩
    ⟨"bob@example.com", "newsecret", "newsecret"⟩
    ⟨"bob1", "bob@example.com", some "0987654321", "Bob", "pbkdf2_sha256$old", true⟩
    (by decide) (by decide)
  refine ⟨?_, h.2 "newsecret"⟩
  rw [h.1]
  decide

/-- The database after `VerifyOTPView.post` promotes pending user `p` using
the OTP row `r`: the OTP is marked used, the promoted user (with the doubly
hashed password `set_password(pending.password)`) is appended, and the
pending row is deleted. -/
def verifyPromotedDb (db : DB) (username : String) (r : EmailOTPRow)
    (p : PendingUserRow) : DB :=
  { users := db.users ++
      [⟨username, p.email, p.mobile_no, p.first_name, make_password p.password, true⟩]
    pending := db.pending.filter (fun q => !(q.email == p.email))
    otps := markUsed db.otps r.id
    blacklistedJtis := db.blacklistedJtis
    outbox := db.outbox }

/-- Success path of `VerifyOTPView.post` (views.py 341-386): with a unique
matching unused unexpired registration OTP, an existing pending row, a fresh
username and no unique-column collisions, the view returns 200, marks the OTP
used, creates the active user and deletes the pending row. -/
theorem verifyOtp_success (db : DB) (now : Int) (username email code : String)
    (r : EmailOTPRow) (p : PendingUserRow)
    (hemail : email ≠ "") (hcode : code ≠ "")
    (hfilter : db.otps.filter (vpred email code) = [r])
    (hunexp : now < r.expires_at)
    (hpend : db.pending.find? (fun q => q.email == email) = some p)
    (hnorm : normalize_email p.email = p.email)
    (hnouser : ∀ v ∈ db.users, v.email ≠ p.email ∧ v.username ≠ username
        ∧ ∀ m, p.mobile_no = some m → v.mobile_no ≠ some m) :
    verifyOtpPost db now username email code
      = .ok ⟨200, "OTP verified successfully.", verifyPromotedDb db username r p,
          some p.email⟩ := by
  have hfind := latestOtp_of_filter_singleton hfilter
  have hpe : p.email = email := by
    have h := List.find?_some hpend
    simpa using h
  have h1 : email.isEmpty = false := by
    cases he : email.isEmpty
    · rfl
    · exact absurd ((String.isEmpty_iff email).mp he) hemail
  have h2 : code.isEmpty = false := by
    cases he : code.isEmpty
    · rfl
    · exact absurd ((String.isEmpty_iff code).mp he) hcode
  have hpne : p.email.isEmpty = false := by
    rw [hpe]
    exact h1
  have hexp : r.is_expired now = false := by
    simp [EmailOTPRow.is_expired, not_le.mpr hunexp]
  have hany : db.users.any (fun v =>
      v.email == p.email || v.username == username
        || (match p.mobile_no with
            | some m => v.mobile_no == some m
            | none => false)) = false := by
    rw [List.any_eq_false]
    intro v hv
    rcases hnouser v hv with ⟨hve, hvu, hvm⟩
    simp only [Bool.or_eq_true, beq_iff_eq, not_or]
    refine ⟨⟨hve, hvu⟩, ?_⟩
    cases hm : p.mobile_no with
    | none => simp
    | some m =>
      simp only [beq_iff_eq]
      exact hvm m hm
  unfold verifyOtpPost create_user
  simp only [h1, h2, Bool.or_self, Bool.false_eq_true, if_false, hfind, hexp, hpend,
    hpne, hany, hnorm]
  rfl

/-- After `mark_used`, no row matches the unused-OTP verification filter any
more (given the matching row was unique and primary keys are unique). -/
theorem filter_vpred_markUsed_nil (otps : List EmailOTPRow) (r : EmailOTPRow)
    (email code : String)
    (hfilter : otps.filter (vpred email code) = [r]) :
    (markUsed otps r.id).filter (vpred email code) = [] := by
  rw [List.filter_eq_nil_iff]
  intro a ha
  rcases List.mem_map.mp ha with ⟨x, hx, rfl⟩
  by_cases hid : (x.id == r.id) = true
  · simp only [hid, if_true]
    unfold vpred
    simp
  · simp only [hid, Bool.false_eq_true, if_false]
    intro hvp
    have hmem : x ∈ otps.filter (vpred email code) :=
      List.mem_filter.mpr ⟨hx, hvp⟩
    rw [hfilter] at hmem
    have hxr : x = r := by simpa using hmem
    exact hid (by simp [hxr])

/-- C2: with a matching, unused, unexpired registration OTP (unique match)
and a pending row for the e-mail (fresh username, no unique-column
collisions, normalised e-mail), `VerifyOTPView.post` marks the OTP used,
creates an active `CustomUser` carrying the pending row's e-mail, password
(as passed to `create_user`, i.e. stored as `set_password(pending.password)`),
first name and mobile number, deletes the `PendingUser` row and issues
tokens; the promotion happens exactly once — repeating the same verification
afterwards returns 400 and changes nothing. -/
theorem C2_verify_promotes_pending_exactly_once
    (db : DB) (now now2 : Int) (username username2 email code : String)
    (r : EmailOTPRow) (p : PendingUserRow)
    (hemail : email ≠ "") (hcode : code ≠ "")
    (hfilter : db.otps.filter (vpred email code) = [r])
    (hunexp : now < r.expires_at)
    (hpend : db.pending.find? (fun q => q.email == email) = some p)
    (hnorm : normalize_email p.email = p.email)
    (hnouser : ∀ v ∈ db.users, v.email ≠ p.email ∧ v.username ≠ username
        ∧ ∀ m, p.mobile_no = some m → v.mobile_no ≠ some m) :
    verifyOtpPost db now username email code
      = .ok ⟨200, "OTP verified successfully.", verifyPromotedDb db username r p,
          some p.email⟩
    ∧ verifyOtpPost (verifyPromotedDb db username r p) now2 username2 email code
      = .ok ⟨400, "Invalid or expired OTP.", verifyPromotedDb db username r p, none⟩ := by
  refine ⟨verifyOtp_success db now username email code r p hemail hcode hfilter hunexp
    hpend hnorm hnouser, ?_⟩
  have hnil : (verifyPromotedDb db username r p).otps.filter (vpred email code) = [] :=
    filter_vpred_markUsed_nil db.otps r email code hfilter
  have hnone := latestOtp_of_filter_nil hnil
  have h1 : email.isEmpty = false := by
    cases he : email.isEmpty
    · rfl
    · exact absurd ((String.isEmpty_iff email).mp he) hemail
  have h2 : code.isEmpty = false := by
    cases he : code.isEmpty
    · rfl
    · exact absurd ((String.isEmpty_iff code).mp he) hcode
  unfold verifyOtpPost
  simp [h1, h2, hnone]

/-- C2 witness: a concrete pending user promoted by a concrete OTP
verification, with the repeat attempt rejected. -/
theorem C2_verify_promotes_pending_exactly_once_witness :
    verifyOtpPost
      ⟨[], [⟨"eve@example.com", "Eve", "", some "1112223334", "", "", "pbkdf2_sha256$pw", 0⟩],
        [⟨3, "eve@example.com", "111222", "registration", 0, 600, false⟩], [], []⟩
      100 "eve_1234" "eve@example.com" "111222"
      = .ok ⟨200, "OTP verified successfully.",
          verifyPromotedDb
            ⟨[], [⟨"eve@example.com", "Eve", "", some "1112223334", "", "", "pbkdf2_sha256$pw", 0⟩],
              [⟨3, "eve@example.com", "111222", "registration", 0, 600, false⟩], [], []⟩
            "eve_1234"
            ⟨3, "eve@example.com", "111222", "registration", 0, 600, false⟩
            ⟨"eve@example.com", "Eve", "", some "1112223334", "", "", "pbkdf2_sha256$pw", 0⟩,
          some "eve@example.com"⟩
    ∧ verifyOtpPost
        (verifyPromotedDb
          ⟨[], [⟨"eve@example.com", "Eve", "", some "1112223334", "", "", "pbkdf2_sha256$pw", 0⟩],
            [⟨3, "eve@example.com", "111222", "registration", 0, 600, false⟩], [], []⟩
          "eve_1234"
          ⟨3, "eve@example.com", "111222", "registration", 0, 600, false⟩
          ⟨"eve@example.com", "Eve", "", some "1112223334", "", "", "pbkdf2_sha256$pw", 0⟩)
        200 "eve_9999" "eve@example.com" "111222"
      = .ok ⟨400, "Invalid or expired OTP.",
          verifyPromotedDb
            ⟨[], [⟨"eve@example.com", "Eve", "", some "1112223334", "", "", "pbkdf2_sha256$pw", 0⟩],
              [⟨3, "eve@example.com", "111222", "registration", 0, 600, false⟩], [], []⟩
            "eve_1234"
            ⟨3, "eve@example.com", "111222", "registration", 0, 600, false⟩
            ⟨"eve@example.com", "Eve", "", some "1112223334", "", "", "pbkdf2_sha256$pw", 0⟩, none⟩ :=
  C2_verify_promotes_pending_exactly_once _ 100 200 "eve_1234" "eve_9999"
    "eve@example.com" "111222"
    ⟨3, "eve@example.com", "111222", "registration", 0, 600, false⟩
    ⟨"eve@example.com", "Eve", "", some "1112223334", "", "", "pbkdf2_sha256$pw", 0⟩
    (by decide) (by decide) (by decide) (by decide) (by decide) (by decide) (by simp)

/-- C4: the user promoted by `VerifyOTPView.post` stores
`set_password(pending.password)` — the hash of `PendingUser.password`, which
is itself already a hash of the plaintext the user registered with (the
field is documented "Already hashed", models.py 78) — so `check_password`
with the originally registered plaintext returns `False` on the promoted
user. -/
theorem C4_promoted_user_password_double_hashed
    (db : DB) (now : Int) (username email code plain : String)
    (r : EmailOTPRow) (p : PendingUserRow)
    (hemail : email ≠ "") (hcode : code ≠ "")
    (hfilter : db.otps.filter (vpred email code) = [r])
    (hunexp : now < r.expires_at)
    (hpend : db.pending.find? (fun q => q.email == email) = some p)
    (hnorm : normalize_email p.email = p.email)
    (hnouser : ∀ v ∈ db.users, v.email ≠ p.email ∧ v.username ≠ username
        ∧ ∀ m, p.mobile_no = some m → v.mobile_no ≠ some m)
    (hplain : p.password = make_password plain) :
    ∃ res : VerifyResult,
      verifyOtpPost db now username email code = .ok res
      ∧ res.db.users = db.users ++
          [⟨username, p.email, p.mobile_no, p.first_name,
            make_password (make_password plain), true⟩]
      ∧ check_password plain (make_password (make_password plain)) = false := by
  refine ⟨_, verifyOtp_success db now username email code r p hemail hcode hfilter
    hunexp hpend hnorm hnouser, ?_, check_password_double_hash plain⟩
  unfold verifyPromotedDb
  simp [hplain]

/-- C4 witness: the double hash on a concrete promotion; the registered
plaintext `secret12` no longer checks against the stored password. -/
theorem C4_promoted_user_password_double_hashed_witness :
    ∃ res : VerifyResult,
      verifyOtpPost
        ⟨[], [⟨"eve@x.com", "Eve", "", some "1112223334", "", "",
            "pbkdf2_sha256$secret12", 0⟩],
          [⟨4, "eve@x.com", "222333", "registration", 0, 600, false⟩], [], []⟩
        100 "eve_77" "eve@x.com" "222333" = .ok res
      ∧ res.db.users = [] ++
          [⟨"eve_77", "eve@x.com", some "1112223334", "Eve",
            make_password (make_password "secret12"), true⟩]
      ∧ check_password "secret12" (make_password (make_password "secret12")) = false :=
  C4_promoted_user_password_double_hashed _ 100 "eve_77" "eve@x.com" "222333" "secret12"
    ⟨4, "eve@x.com", "222333", "registration", 0, 600, false⟩
    ⟨"eve@x.com", "Eve", "", some "1112223334", "", "", "pbkdf2_sha256$secret12", 0⟩
    (by decide) (by decide) (by decide) (by decide) (by decide) (by decide) (by simp) rfl

/-- Database for the C7 evaluation: one active user and an empty
`BlacklistedAccessToken` table (nothing in the source ever inserts into that
table; only the admin UI can). -/
def dbC7 : DB :=
  { users := [⟨"carol1", "carol@example.com", some "5550001111", "Carol", "pbkdf2_sha256$pw", true⟩]
  , pending := []
  , otps := []
  , blacklistedJtis := []
  , outbox := [] }

/-- A valid access token for Carol. -/
def tokC7 : AccessTokenData :=
  ⟨"jti-1", "carol@example.com", true, true⟩

/-- C7: the first half of the claim holds — `authenticate` raises
`AuthenticationFailed` for any otherwise-valid access token whose `jti` is in
`BlacklistedAccessToken` — but the second half does not: `LogoutView.post`
writes no blacklist row whatsoever (the `token_blacklist` app is not
installed, so `token.blacklist()` raises `AttributeError`, swallowed by the
bare `except`), hence after a logout the very same access token still
authenticates on the next request. -/
theorem C7_blacklist_checked_but_logout_never_blacklists :
    (∀ (db : DB) (t : AccessTokenData) (rc : Option RefreshTokenData) (fj : String),
      t.sigOk = true → t.notExpired = true → t.jti ≠ "" →
      db.blacklistedJtis.contains t.jti = true →
      customJwtAuthenticate db (some t) rc fj
        = .failed "This access token has been blacklisted.")
    ∧ (∀ (db : DB) (c : Option String), (logoutPost db c).2 = db)
    ∧ customJwtAuthenticate (logoutPost dbC7 (some "some-refresh-jwt")).2 (some tokC7)
        none "fresh" = .authenticated "carol@example.com" "jti-1" := by
  refine ⟨?_, ?_, by decide⟩
  · intro db t rc fj hsig hexp hne hbl
    have h1 : t.jti.isEmpty = false := by
      cases he : t.jti.isEmpty
      · rfl
      · exact absurd ((String.isEmpty_iff t.jti).mp he) hne
    have hmem : t.jti ∈ db.blacklistedJtis := by
      simpa using hbl
    unfold customJwtAuthenticate
    simp [hsig, hexp, h1, hmem]
  · intro db c
    unfold logoutPost
    cases c <;> rfl

/-- C7 witness: a concrete blacklisted jti is rejected by `authenticate`. -/
theorem C7_blacklist_checked_but_logout_never_blacklists_witness :
    customJwtAuthenticate ⟨[], [], [], ["jti-9"], []⟩
      (some ⟨"jti-9", "carol@example.com", true, true⟩) none "fresh"
      = .failed "This access token has been blacklisted." :=
  C7_blacklist_checked_but_logout_never_blacklists.1
    ⟨[], [], [], ["jti-9"], []⟩ ⟨"jti-9", "carol@example.com", true, true⟩ none "fresh"
    rfl rfl (by decide) (by decide)
